import Mathlib

/-!
A verification development for the core of the Stockfish 1.x chess engine
(files tt.h, position.h, material.cpp, uci.cpp, ucioption.cpp).

Machine integers are embedded as `Nat`/`Int` with explicit reductions
modulo powers of two where the C++ types wrap (`uint32_t`, `uint8_t`,
`int16_t`).  `std::map` is embedded as an association list whose `insert`
is insert-if-absent, matching `std::map::insert` semantics.
-/

/- ===================================================================
   Transposition table (tt.h)
   =================================================================== -/

/-- Conversion of an integer to the C++ `int16_t` type: reduce modulo
2^16 into the signed range [-2^15, 2^15). -/
def int16Of (v : Int) : Int := (v + 2 ^ 15) % 2 ^ 16 - 2 ^ 15

/-- The unsigned 16-bit pattern of an `int16_t` value (two's complement). -/
def uint16Of (v : Int) : Nat := (v % 2 ^ 16).toNat

/-- A transposition table entry as laid out in tt.h:
64-bit `key_`, 32-bit packed `data`, 16-bit signed `value_` and `depth_`. -/
structure TTEntry where
  key_ : Nat
  data : Nat
  value_ : Int
  depth_ : Int

namespace TTEntry

/-- The TTEntry constructor:
`key_(k), data((m & 0x1FFFF) | (t << 20) | (generation << 23)),
value_(int16_t(v)), depth_(int16_t(d))`; the packed word is stored in a
`uint32_t`, hence the reduction modulo 2^32. -/
def make (k : Nat) (v : Int) (t : Nat) (d : Int) (m : Nat) (generation : Nat) : TTEntry :=
  { key_ := k
    data := ((m &&& 0x1FFFF) ||| (t <<< 20) ||| (generation <<< 23)) % 2 ^ 32
    value_ := int16Of v
    depth_ := int16Of d }

/-- `Key key() const { return key_; }` -/
def key (e : TTEntry) : Nat := e.key_

/-- `Depth depth() const { return Depth(depth_); }` -/
def depth (e : TTEntry) : Int := e.depth_

/-- `Move move() const { return Move(data & 0x1FFFF); }` -/
def move (e : TTEntry) : Nat := e.data &&& 0x1FFFF

/-- `Value value() const { return Value(value_); }` -/
def value (e : TTEntry) : Int := e.value_

/-- `ValueType type() const { return ValueType((data >> 20) & 7); }` -/
def type (e : TTEntry) : Nat := (e.data >>> 20) &&& 7

/-- `int generation() const { return (data >> 23); }` -/
def generation (e : TTEntry) : Nat := e.data >>> 23

/-- The bit pattern of a stored entry: key in bits 0-63, data in bits
64-95, value in bits 96-111, depth in bits 112-127 (tt.h's layout
comment). -/
def bits (e : TTEntry) : Nat :=
  e.key_ + 2 ^ 64 * e.data + 2 ^ 96 * uint16Of e.value_ + 2 ^ 112 * uint16Of e.depth_

end TTEntry

namespace TranspositionTable

/-- Modelled from the spec: `new_search()` "bumps generation".  The
counter is the field `uint8_t generation;` declared in tt.h, so the
increment wraps modulo 2^8 (the body of `new_search` lives in tt.cpp,
which is not part of this source tree). -/
def new_search (generation : Nat) : Nat := (generation + 1) % 2 ^ 8

/-- The spec's words for `new_search`: "bumps generation (wrapping into
9 bits)", i.e. an increment modulo 2^9.  Stated for comparison with
the implementation-accurate `new_search`. -/
def new_search_spec9 (generation : Nat) : Nat := (generation + 1) % 2 ^ 9

end TranspositionTable

/- ===================================================================
   Position (position.h)
   =================================================================== -/

/-- `PHASE_ENDGAME = 0` from the `Phase` enum in position.h. -/
def PHASE_ENDGAME : Nat := 0

/-- `PHASE_MIDGAME = 128` from the `Phase` enum in position.h. -/
def PHASE_MIDGAME : Nat := 128

namespace Position

/-- `static const Value MidgameLimit = Value(15713)` in `game_phase`. -/
def MidgameLimit : Nat := 15713

/-- `static const Value EndgameLimit = Value(4428)` in `game_phase`. -/
def EndgameLimit : Nat := 4428

/-- `Position::game_phase()` as a function of the total non-pawn
material `npm = non_pawn_material(WHITE) + non_pawn_material(BLACK)`
(a nonnegative sum of piece values, embedded as `Nat`). -/
def game_phase (npm : Nat) : Nat :=
  if npm ≥ MidgameLimit then PHASE_MIDGAME
  else if npm ≤ EndgameLimit then PHASE_ENDGAME
  else ((npm - EndgameLimit) * 128) / (MidgameLimit - EndgameLimit)

/-- The spec's description of the phase: 128 at or above the midgame
threshold 15713, 0 at or below the endgame threshold 4428, and the
linear ramp `((npm - 4428) * 128) / (15713 - 4428)` in between. -/
def gamePhaseSpec (npm : Nat) : Nat :=
  if 15713 ≤ npm then 128
  else if npm ≤ 4428 then 0
  else ((npm - 4428) * 128) / (15713 - 4428)

/-- `const Bitboard FileABB = 0x0101010101010101ULL`.  Modelled from the
spec (bitboard.h is not part of this source tree): bit `i` of a bitboard
is set iff square `i` is a member, squares are numbered file-then-rank
with a1 = 0, so file A is the bits 0, 8, ..., 56. -/
def FileABB : Nat := 0x0101010101010101

/-- `file_bb(f)`: the bitboard of the squares of file `f`.  Modelled
from the spec (bitboard.h is not part of this source tree) as the file A
mask shifted left by `f`. -/
def file_bb (f : Nat) : Nat := FileABB <<< f

/-- `Position::file_is_open(pawns, f)`:
`return !(pawns & file_bb(f));` -/
def file_is_open (pawns : Nat) (f : Nat) : Bool := (pawns &&& file_bb f) == 0

/-- `Position::file_is_half_open(pawns, f)`:
`return !(pawns & file_bb(f));` (the body is identical to
`file_is_open`). -/
def file_is_half_open (pawns : Nat) (f : Nat) : Bool := (pawns &&& file_bb f) == 0

end Position

/- ===================================================================
   Material info table and endgame function registry (material.cpp)
   =================================================================== -/

/-- The two piece colors (color.h). -/
inductive Color where
  | WHITE
  | BLACK
deriving DecidableEq

/-- `opposite_color(c)` from color.h. -/
def opposite_color (c : Color) : Color :=
  match c with
  | Color.WHITE => Color.BLACK
  | Color.BLACK => Color.WHITE

/-- Piece types (piece.h). -/
inductive PieceType where
  | PAWN
  | KNIGHT
  | BISHOP
  | ROOK
  | QUEEN
  | KING
deriving DecidableEq

/-- Modelled from the spec (value.h is not part of this source tree):
midgame piece values in centipawn-like units. -/
def KnightValueMidgame : Int := 817

/-- Modelled from the spec (value.h is not part of this source tree). -/
def BishopValueMidgame : Int := 836

/-- Modelled from the spec (value.h is not part of this source tree). -/
def RookValueMidgame : Int := 1270

/-- Modelled from the spec (value.h is not part of this source tree). -/
def QueenValueMidgame : Int := 2521

/-- `const Value BishopPairMidgameBonus = Value(109);` (material.cpp). -/
def BishopPairMidgameBonus : Int := 109

/-- `const Value BishopPairEndgameBonus = Value(97);` (material.cpp). -/
def BishopPairEndgameBonus : Int := 97

/-- `EmptyBoardBB`: the empty bitboard.  Modelled from the spec:
a bitboard with no square set is 0. -/
def EmptyBoardBB : Nat := 0

/-- Modelled from the spec: the material key depends on the piece counts
of each color and type only ("materialKey (piece counts only, no
squares)"; position.cpp with `compute_material_key` is not part of this
source tree).  The Zobrist hash is idealized as the injective encoding
of the twelve piece counts. -/
abbrev MatKey := List Nat

/-- The twelve (color, piece type) buckets of the material key, in a
fixed order. -/
def allColorTypes : List (Color × PieceType) :=
  [(Color.WHITE, PieceType.PAWN), (Color.WHITE, PieceType.KNIGHT),
   (Color.WHITE, PieceType.BISHOP), (Color.WHITE, PieceType.ROOK),
   (Color.WHITE, PieceType.QUEEN), (Color.WHITE, PieceType.KING),
   (Color.BLACK, PieceType.PAWN), (Color.BLACK, PieceType.KNIGHT),
   (Color.BLACK, PieceType.BISHOP), (Color.BLACK, PieceType.ROOK),
   (Color.BLACK, PieceType.QUEEN), (Color.BLACK, PieceType.KING)]

/-- Modelled from the spec: the material key of a bag of pieces is the
vector of its piece counts per (color, piece type). -/
def materialKeyOfPieces (pieces : List (Color × PieceType)) : MatKey :=
  allColorTypes.map
    (fun ct => pieces.countP (fun p => decide (p.1 = ct.1 ∧ p.2 = ct.2)))

/-- The specialized endgame evaluation functions registered in
material.cpp (endgame.h is not part of this source tree; the functions
are embedded as an enumeration of tags, since the claims concern which
function is selected, not its value). -/
inductive EEF where
  | EvaluateKXK
  | EvaluateKKX
  | EvaluateKmmKm
  | EvaluateKPK
  | EvaluateKKP
  | EvaluateKBNK
  | EvaluateKKBN
  | EvaluateKRKP
  | EvaluateKPKR
  | EvaluateKRKB
  | EvaluateKBKR
  | EvaluateKRKN
  | EvaluateKNKR
  | EvaluateKQKR
  | EvaluateKRKQ
  | EvaluateKBBKN
  | EvaluateKNKBB
deriving DecidableEq

/-- The endgame scaling functions registered or hard-coded in
material.cpp, embedded as tags. -/
inductive ESF where
  | ScaleKNPK
  | ScaleKKNP
  | ScaleKRPKR
  | ScaleKRKRP
  | ScaleKBPKB
  | ScaleKBKBP
  | ScaleKBPPKB
  | ScaleKBKBPP
  | ScaleKBPKN
  | ScaleKNKBP
  | ScaleKRPPKRP
  | ScaleKRPKRPP
  | ScaleKBPK
  | ScaleKKBP
  | ScaleKQKRP
  | ScaleKRPKQ
  | ScaleKPsK
  | ScaleKKPs
  | ScaleKPKPw
  | ScaleKPKPb
deriving DecidableEq

/-- `struct ScalingInfo { Color col; EndgameScalingFunctionBase* fun; }`
(the pointer field is named `sfun` here because `fun` is a Lean
keyword). -/
structure ScalingInfo where
  col : Color
  sfun : ESF
deriving DecidableEq

/-- The two maps held by `EndgameFunctions`. -/
structure EndgameFunctions where
  EEFmap : List (MatKey × EEF)
  ESFmap : List (MatKey × ScalingInfo)
deriving DecidableEq

/-- `std::map::insert`: insert the pair only if the key is not already
present (an existing binding is never overwritten). -/
def mapInsert {α : Type} (m : List (MatKey × α)) (k : MatKey) (v : α) : List (MatKey × α) :=
  if m.any (fun p => p.1 == k) then m else m ++ [(k, v)]

/-- `std::map::find` followed by the end-iterator test: the value bound
to the key, if any. -/
def mapFind {α : Type} (m : List (MatKey × α)) (k : MatKey) : Option α :=
  (m.find? (fun p => p.1 == k)).map (fun p => p.2)

/-- `EndgameFunctions::buildKey(keyCode)`: keyCodes like "KRPPKRP" list
the white pieces from the first 'K' and the black pieces from the second
'K' (the source toggles an `upcase` flag on each 'K' and builds a FEN
from which the material key is computed). -/
def pieceTypeOfChar (c : Char) : PieceType :=
  if c = 'K' then PieceType.KING
  else if c = 'Q' then PieceType.QUEEN
  else if c = 'R' then PieceType.ROOK
  else if c = 'B' then PieceType.BISHOP
  else if c = 'N' then PieceType.KNIGHT
  else PieceType.PAWN

/-- The pieces denoted by a keyCode, with the source's `upcase` toggle:
the flag flips on each 'K', and a piece is white while the flag is
set. -/
def keyCodePieces : List Char → Bool → List (Color × PieceType)
  | [], _ => []
  | ch :: rest, upcase =>
      let upcase1 := if ch = 'K' then !upcase else upcase
      (if upcase1 then Color.WHITE else Color.BLACK, pieceTypeOfChar ch) ::
        keyCodePieces rest upcase1

/-- `EndgameFunctions::buildKey`. -/
def buildKey (keyCode : String) : MatKey :=
  materialKeyOfPieces (keyCodePieces keyCode.data false)

/-- `Key KNNKMaterialKey`, set in the `EndgameFunctions` constructor. -/
def KNNKMaterialKey : MatKey := buildKey "KNNK"

/-- `Key KKNNMaterialKey`, set in the `EndgameFunctions` constructor. -/
def KKNNMaterialKey : MatKey := buildKey "KKNN"

/-- `EndgameFunctions::add(keyCode, f)` for evaluation functions. -/
def addEEF (ef : EndgameFunctions) (keyCode : String) (f : EEF) : EndgameFunctions :=
  { ef with EEFmap := mapInsert ef.EEFmap (buildKey keyCode) f }

/-- `EndgameFunctions::add(keyCode, c, f)` for scaling functions. -/
def addESF (ef : EndgameFunctions) (keyCode : String) (c : Color) (f : ESF) : EndgameFunctions :=
  { ef with ESFmap := mapInsert ef.ESFmap (buildKey keyCode) ⟨c, f⟩ }

/-- `EndgameFunctions::getEEF(key)`. -/
def getEEF (ef : EndgameFunctions) (key : MatKey) : Option EEF :=
  mapFind ef.EEFmap key

/-- `EndgameFunctions::getESF(key, &c)`: the scaling function together
with the color it applies to. -/
def getESF (ef : EndgameFunctions) (key : MatKey) : Option ScalingInfo :=
  mapFind ef.ESFmap key

/-- The `EndgameFunctions` constructor: the exact registration sequence
of material.cpp, including the duplicated KRPPKRP/KRPKRPP lines. -/
def initEndgameFunctions : EndgameFunctions :=
  let e : EndgameFunctions := { EEFmap := [], ESFmap := [] }
  let e := addEEF e "KPK" EEF.EvaluateKPK
  let e := addEEF e "KKP" EEF.EvaluateKKP
  let e := addEEF e "KBNK" EEF.EvaluateKBNK
  let e := addEEF e "KKBN" EEF.EvaluateKKBN
  let e := addEEF e "KRKP" EEF.EvaluateKRKP
  let e := addEEF e "KPKR" EEF.EvaluateKPKR
  let e := addEEF e "KRKB" EEF.EvaluateKRKB
  let e := addEEF e "KBKR" EEF.EvaluateKBKR
  let e := addEEF e "KRKN" EEF.EvaluateKRKN
  let e := addEEF e "KNKR" EEF.EvaluateKNKR
  let e := addEEF e "KQKR" EEF.EvaluateKQKR
  let e := addEEF e "KRKQ" EEF.EvaluateKRKQ
  let e := addEEF e "KBBKN" EEF.EvaluateKBBKN
  let e := addEEF e "KNKBB" EEF.EvaluateKNKBB
  let e := addESF e "KNPK" Color.WHITE ESF.ScaleKNPK
  let e := addESF e "KKNP" Color.BLACK ESF.ScaleKKNP
  let e := addESF e "KRPKR" Color.WHITE ESF.ScaleKRPKR
  let e := addESF e "KRKRP" Color.BLACK ESF.ScaleKRKRP
  let e := addESF e "KBPKB" Color.WHITE ESF.ScaleKBPKB
  let e := addESF e "KBKBP" Color.BLACK ESF.ScaleKBKBP
  let e := addESF e "KBPPKB" Color.WHITE ESF.ScaleKBPPKB
  let e := addESF e "KBKBPP" Color.BLACK ESF.ScaleKBKBPP
  let e := addESF e "KBPKN" Color.WHITE ESF.ScaleKBPKN
  let e := addESF e "KNKBP" Color.BLACK ESF.ScaleKNKBP
  let e := addESF e "KRPPKRP" Color.WHITE ESF.ScaleKRPPKRP
  let e := addESF e "KRPKRPP" Color.BLACK ESF.ScaleKRPKRPP
  let e := addESF e "KRPPKRP" Color.WHITE ESF.ScaleKRPPKRP
  let e := addESF e "KRPKRPP" Color.BLACK ESF.ScaleKRPKRPP
  e

/-- The part of a `MaterialInfo` object populated by
`get_material_info` (material.h is not part of this source tree; the
fields follow the spec's description of MaterialInfo: key, pointer to
specialized evaluator or none, scaling function per color, mg/eg
imbalance, space weight, factor per color). -/
structure MaterialInfo where
  key : MatKey
  evaluationFunction : Option EEF
  scalingFunctionW : Option ESF
  scalingFunctionB : Option ESF
  mgValue : Int
  egValue : Int
  spaceWeight : Nat
  factorW : Nat
  factorB : Nat
deriving DecidableEq

/-- `MaterialInfo::clear()`.  Modelled from the spec (material.h is not
part of this source tree): no evaluation or scaling function, zero
imbalance and space weight, factor 64 = normal for both colors. -/
def clearMI : MaterialInfo :=
  { key := []
    evaluationFunction := none
    scalingFunctionW := none
    scalingFunctionB := none
    mgValue := 0
    egValue := 0
    spaceWeight := 0
    factorW := 64
    factorB := 64 }

/-- `mi->factor[c]` as a read. -/
def MaterialInfo.factor (mi : MaterialInfo) (c : Color) : Nat :=
  match c with
  | Color.WHITE => mi.factorW
  | Color.BLACK => mi.factorB

/-- `mi->factor[c] = v` as an update. -/
def MaterialInfo.setFactor (mi : MaterialInfo) (c : Color) (v : Nat) : MaterialInfo :=
  match c with
  | Color.WHITE => { mi with factorW := v }
  | Color.BLACK => { mi with factorB := v }

/-- `mi->scalingFunction[c] = f` as an update. -/
def MaterialInfo.setScaling (mi : MaterialInfo) (c : Color) (f : ESF) : MaterialInfo :=
  match c with
  | Color.WHITE => { mi with scalingFunctionW := some f }
  | Color.BLACK => { mi with scalingFunctionB := some f }

/-- The interface of `Position` that `get_material_info` queries:
material key, non-pawn material and piece counts per color, and the
bitboards of all pawns, rooks and queens. -/
structure Position where
  materialKey : MatKey
  npMaterial : Color → Int
  pieceCount : Color → PieceType → Nat
  pawnsBB : Nat
  rooksBB : Nat
  queensBB : Nat

/-- One turn of the material-balance loop of `get_material_info`, for
color `c` with the given `sign` (+1 for WHITE, -1 for BLACK): the
pawnless drawish-factor adjustment, the bishop pair bonus, Kaufman's
knight and redundant-rook terms. -/
def imbalanceColor (pos : Position) (c : Color) (sign : Int)
    (st : MaterialInfo × Int × Int) : MaterialInfo × Int × Int :=
  let mi := st.1
  let mgValue := st.2.1
  let egValue := st.2.2
  let mi :=
    if pos.pieceCount c PieceType.PAWN = 0 ∧
        pos.npMaterial c - pos.npMaterial (opposite_color c) ≤ BishopValueMidgame then
      if pos.npMaterial c = pos.npMaterial (opposite_color c) ∨
          pos.npMaterial c < RookValueMidgame then
        mi.setFactor c 0
      else if pos.pieceCount c PieceType.BISHOP = 2 then mi.setFactor c 32
      else if pos.pieceCount c PieceType.BISHOP = 1 then mi.setFactor c 12
      else if pos.pieceCount c PieceType.BISHOP = 0 then mi.setFactor c 6
      else mi
    else mi
  let mgValue :=
    if pos.pieceCount c PieceType.BISHOP ≥ 2 then mgValue + sign * BishopPairMidgameBonus
    else mgValue
  let egValue :=
    if pos.pieceCount c PieceType.BISHOP ≥ 2 then egValue + sign * BishopPairEndgameBonus
    else egValue
  let knightTerm : Int :=
    (pos.pieceCount c PieceType.KNIGHT : Int) * ((pos.pieceCount c PieceType.PAWN : Int) - 5) * 16
  let mgValue := mgValue + sign * knightTerm
  let egValue := egValue + sign * knightTerm
  let rookTerm : Int :=
    ((pos.pieceCount c PieceType.ROOK : Int) - 1) * 32 + (pos.pieceCount c PieceType.QUEEN : Int) * 16
  let mgValue :=
    if pos.pieceCount c PieceType.ROOK ≥ 1 then mgValue - sign * rookTerm else mgValue
  let egValue :=
    if pos.pieceCount c PieceType.ROOK ≥ 1 then egValue - sign * rookTerm else egValue
  (mi, mgValue, egValue)

/-- The tail of `get_material_info`: the hand-coded scaling-function
special cases, the space weight, and the material balance loop. -/
def materialScalingAndBalance (pos : Position) (mi : MaterialInfo) : MaterialInfo :=
  let mi :=
    if pos.npMaterial Color.WHITE = BishopValueMidgame ∧
        pos.pieceCount Color.WHITE PieceType.BISHOP = 1 ∧
        pos.pieceCount Color.WHITE PieceType.PAWN ≥ 1 then
      mi.setScaling Color.WHITE ESF.ScaleKBPK
    else mi
  let mi :=
    if pos.npMaterial Color.BLACK = BishopValueMidgame ∧
        pos.pieceCount Color.BLACK PieceType.BISHOP = 1 ∧
        pos.pieceCount Color.BLACK PieceType.PAWN ≥ 1 then
      mi.setScaling Color.BLACK ESF.ScaleKKBP
    else mi
  let mi :=
    if pos.pieceCount Color.WHITE PieceType.PAWN = 0 ∧
        pos.npMaterial Color.WHITE = QueenValueMidgame ∧
        pos.pieceCount Color.WHITE PieceType.QUEEN = 1 ∧
        pos.pieceCount Color.BLACK PieceType.ROOK = 1 ∧
        pos.pieceCount Color.BLACK PieceType.PAWN ≥ 1 then
      mi.setScaling Color.WHITE ESF.ScaleKQKRP
    else if pos.pieceCount Color.BLACK PieceType.PAWN = 0 ∧
        pos.npMaterial Color.BLACK = QueenValueMidgame ∧
        pos.pieceCount Color.BLACK PieceType.QUEEN = 1 ∧
        pos.pieceCount Color.WHITE PieceType.ROOK = 1 ∧
        pos.pieceCount Color.WHITE PieceType.PAWN ≥ 1 then
      mi.setScaling Color.BLACK ESF.ScaleKRPKQ
    else mi
  let mi :=
    if pos.npMaterial Color.WHITE + pos.npMaterial Color.BLACK = 0 then
      if pos.pieceCount Color.BLACK PieceType.PAWN = 0 then
        mi.setScaling Color.WHITE ESF.ScaleKPsK
      else if pos.pieceCount Color.WHITE PieceType.PAWN = 0 then
        mi.setScaling Color.BLACK ESF.ScaleKKPs
      else if pos.pieceCount Color.WHITE PieceType.PAWN = 1 ∧
          pos.pieceCount Color.BLACK PieceType.PAWN = 1 then
        (mi.setScaling Color.WHITE ESF.ScaleKPKPw).setScaling Color.BLACK ESF.ScaleKPKPb
      else mi
    else mi
  let mi :=
    if pos.npMaterial Color.WHITE + pos.npMaterial Color.BLACK ≥
        2 * QueenValueMidgame + 4 * RookValueMidgame + 2 * KnightValueMidgame then
      let minorPieceCount :=
        pos.pieceCount Color.WHITE PieceType.KNIGHT + pos.pieceCount Color.BLACK PieceType.KNIGHT +
          pos.pieceCount Color.WHITE PieceType.BISHOP + pos.pieceCount Color.BLACK PieceType.BISHOP
      { mi with spaceWeight := minorPieceCount * minorPieceCount }
    else mi
  let st := imbalanceColor pos Color.BLACK (-1) (imbalanceColor pos Color.WHITE 1 (mi, 0, 0))
  { st.1 with mgValue := int16Of st.2.1, egValue := int16Of st.2.2 }

/-- `MaterialInfoTable::get_material_info(pos)` on a cache miss, with
`funcs` the table's `EndgameFunctions` member: clear the entry, set its
key, and run the dispatch of material.cpp.  (On a cache hit the table
returns the entry this same computation produced when the material key
was first seen; the open-addressed table itself is not modelled.) -/
def get_material_info (funcs : EndgameFunctions) (pos : Position) : MaterialInfo :=
  let key := pos.materialKey
  let mi := { clearMI with key := key }
  if key = KNNKMaterialKey ∨ key = KKNNMaterialKey then
    (mi.setFactor Color.WHITE 0).setFactor Color.BLACK 0
  else
    match getEEF funcs key with
    | some f => { mi with evaluationFunction := some f }
    | none =>
      if pos.npMaterial Color.BLACK = 0 ∧
          pos.pieceCount Color.BLACK PieceType.PAWN = 0 ∧
          pos.npMaterial Color.WHITE ≥ RookValueMidgame then
        { mi with evaluationFunction := some EEF.EvaluateKXK }
      else if pos.npMaterial Color.WHITE = 0 ∧
          pos.pieceCount Color.WHITE PieceType.PAWN = 0 ∧
          pos.npMaterial Color.BLACK ≥ RookValueMidgame then
        { mi with evaluationFunction := some EEF.EvaluateKKX }
      else if (pos.pawnsBB = EmptyBoardBB ∧ pos.rooksBB = EmptyBoardBB ∧
            pos.queensBB = EmptyBoardBB) ∧
          pos.pieceCount Color.WHITE PieceType.BISHOP +
              pos.pieceCount Color.WHITE PieceType.KNIGHT ≤ 2 ∧
          pos.pieceCount Color.BLACK PieceType.BISHOP +
              pos.pieceCount Color.BLACK PieceType.KNIGHT ≤ 2 then
        { mi with evaluationFunction := some EEF.EvaluateKmmKm }
      else
        match getESF funcs key with
        | some s => mi.setScaling s.col s.sfun
        | none => materialScalingAndBalance pos mi

/-- A position with white K + two knights against a bare black king, the
KNN-vs-K material configuration. -/
def posKNNK : Position :=
  { materialKey := buildKey "KNNK"
    npMaterial := fun c =>
      match c with
      | Color.WHITE => 2 * KnightValueMidgame
      | Color.BLACK => 0
    pieceCount := fun c pt =>
      match c, pt with
      | Color.WHITE, PieceType.KNIGHT => 2
      | Color.WHITE, PieceType.KING => 1
      | Color.BLACK, PieceType.KING => 1
      | _, _ => 0
    pawnsBB := 0
    rooksBB := 0
    queensBB := 0 }

/- ===================================================================
   UCI option registry (ucioption.cpp)
   =================================================================== -/

/-- `enum OptionType { SPIN, COMBO, CHECK, STRING, BUTTON }`. -/
inductive OptionType where
  | SPIN
  | COMBO
  | CHECK
  | STRING
  | BUTTON
deriving DecidableEq

/-- `struct Option` of ucioption.cpp (named `UCIOption` here because
`Option` is taken by Lean). -/
structure UCIOption where
  name : String
  defaultValue : String
  currentValue : String
  type : OptionType
  idx : Nat
  minValue : Int
  maxValue : Int
  comboValues : List String
deriving DecidableEq

/-- `typedef std::map<string, Option> Options`, embedded as an
association list looked up by key. -/
abbrev Options := List (String × UCIOption)

/-- `Option(const char* def, OptionType t)`: both values set to the
default, min/max zeroed; `idx` is the registry size at construction. -/
def mkOptionStr (idx : Nat) (d : String) (t : OptionType) : UCIOption :=
  { name := ""
    defaultValue := d
    currentValue := d
    type := t
    idx := idx
    minValue := 0
    maxValue := 0
    comboValues := [] }

/-- `Option(bool def, OptionType t)`: the default is stringified to
"1"/"0". -/
def mkOptionBool (idx : Nat) (d : Bool) (t : OptionType) : UCIOption :=
  mkOptionStr idx (if d then "1" else "0") t

/-- `Option(int def, int minv, int maxv)`: a SPIN option. -/
def mkOptionSpin (idx : Nat) (d minv maxv : Int) : UCIOption :=
  { name := ""
    defaultValue := toString d
    currentValue := toString d
    type := OptionType.SPIN
    idx := idx
    minValue := minv
    maxValue := maxv
    comboValues := [] }

/-- `load_defaults(o)`: the hard-coded option registry, in insertion
order (the trailing loop that copies each key into the option's `name`
field is applied in the final map). -/
def load_defaults : Options :=
  [("Use Search Log", mkOptionBool 0 false OptionType.CHECK),
   ("Search Log Filename", mkOptionStr 1 "SearchLog.txt" OptionType.STRING),
   ("Book File", mkOptionStr 2 "book.bin" OptionType.STRING),
   ("Mobility (Middle Game)", mkOptionSpin 3 100 0 200),
   ("Mobility (Endgame)", mkOptionSpin 4 100 0 200),
   ("Pawn Structure (Middle Game)", mkOptionSpin 5 100 0 200),
   ("Pawn Structure (Endgame)", mkOptionSpin 6 100 0 200),
   ("Passed Pawns (Middle Game)", mkOptionSpin 7 100 0 200),
   ("Passed Pawns (Endgame)", mkOptionSpin 8 100 0 200),
   ("Space", mkOptionSpin 9 100 0 200),
   ("Aggressiveness", mkOptionSpin 10 100 0 200),
   ("Cowardice", mkOptionSpin 11 100 0 200),
   ("King Safety Curve",
     { mkOptionStr 12 "Quadratic" OptionType.COMBO with
         comboValues := ["Quadratic", "Linear"] }),
   ("King Safety Coefficient", mkOptionSpin 13 40 1 100),
   ("King Safety X Intercept", mkOptionSpin 14 0 0 20),
   ("King Safety Max Slope", mkOptionSpin 15 30 10 100),
   ("King Safety Max Value", mkOptionSpin 16 500 100 1000),
   ("Queen Contact Check Bonus", mkOptionSpin 17 3 0 8),
   ("Queen Check Bonus", mkOptionSpin 18 2 0 4),
   ("Rook Check Bonus", mkOptionSpin 19 1 0 4),
   ("Bishop Check Bonus", mkOptionSpin 20 1 0 4),
   ("Knight Check Bonus", mkOptionSpin 21 1 0 4),
   ("Discovered Check Bonus", mkOptionSpin 22 3 0 8),
   ("Mate Threat Bonus", mkOptionSpin 23 3 0 8),
   ("Check Extension (PV nodes)", mkOptionSpin 24 2 0 2),
   ("Check Extension (non-PV nodes)", mkOptionSpin 25 1 0 2),
   ("Single Reply Extension (PV nodes)", mkOptionSpin 26 2 0 2),
   ("Single Reply Extension (non-PV nodes)", mkOptionSpin 27 2 0 2),
   ("Mate Threat Extension (PV nodes)", mkOptionSpin 28 0 0 2),
   ("Mate Threat Extension (non-PV nodes)", mkOptionSpin 29 0 0 2),
   ("Pawn Push to 7th Extension (PV nodes)", mkOptionSpin 30 1 0 2),
   ("Pawn Push to 7th Extension (non-PV nodes)", mkOptionSpin 31 1 0 2),
   ("Passed Pawn Extension (PV nodes)", mkOptionSpin 32 1 0 2),
   ("Passed Pawn Extension (non-PV nodes)", mkOptionSpin 33 0 0 2),
   ("Pawn Endgame Extension (PV nodes)", mkOptionSpin 34 2 0 2),
   ("Pawn Endgame Extension (non-PV nodes)", mkOptionSpin 35 2 0 2),
   ("Full Depth Moves (PV nodes)", mkOptionSpin 36 14 1 100),
   ("Full Depth Moves (non-PV nodes)", mkOptionSpin 37 3 1 100),
   ("Threat Depth", mkOptionSpin 38 5 0 100),
   ("LSN filtering", mkOptionBool 39 false OptionType.CHECK),
   ("LSN Time Margin (sec)", mkOptionSpin 40 4 1 10),
   ("LSN Value Margin", mkOptionSpin 41 200 100 600),
   ("Randomness", mkOptionSpin 42 0 0 10),
   ("Minimum Split Depth", mkOptionSpin 43 4 4 7),
   ("Maximum Number of Threads per Split Point", mkOptionSpin 44 5 4 8),
   ("Threads", mkOptionSpin 45 1 1 8),
   ("Hash", mkOptionSpin 46 32 4 4096),
   ("Clear Hash", mkOptionBool 47 false OptionType.BUTTON),
   ("Ponder", mkOptionBool 48 true OptionType.CHECK),
   ("OwnBook", mkOptionBool 49 true OptionType.CHECK),
   ("MultiPV", mkOptionSpin 50 1 1 500),
   ("UCI_ShowCurrLine", mkOptionBool 51 false OptionType.CHECK),
   ("UCI_Chess960", mkOptionBool 52 false OptionType.CHECK)].map
    (fun p => (p.1, { p.2 with name := p.1 }))

/-- `options.find(name)` followed by the end test. -/
def optionsFind (opts : Options) (name : String) : Option UCIOption :=
  (opts.find? (fun p => p.1 == name)).map (fun p => p.2)

/-- `options.find(name) != options.end()`. -/
def optionsContains (opts : Options) (name : String) : Bool :=
  opts.any (fun p => p.1 == name)

/-- The value conversion of `set_option_value`: the UCI protocol uses
"true" and "false", which are stored as "1" and "0". -/
def convertBoolValue (value : String) : String :=
  if value == "true" then "1" else if value == "false" then "0" else value

/-- `set_option_value(name, value)`: convert "true"/"false" to "1"/"0",
then store the value as the current value of the named option if it
exists, else print "No such option".  The returned pair is the updated
registry and the printed diagnostics. -/
def set_option_value (opts : Options) (name value : String) : Options × List String :=
  let v := convertBoolValue value
  if optionsContains opts name then
    (opts.map (fun p => if p.1 == name then (p.1, { p.2 with currentValue := v }) else p), [])
  else
    (opts, ["No such option: " ++ name])

/-- `get_option_value<bool>`: parsing the stored string as a bool reads
an integer, so "1" is true and "0" (or a failed parse, which leaves the
default-constructed false) is false; a missing option also returns
false. -/
def get_option_value_bool (opts : Options) (name : String) : Bool :=
  match optionsFind opts name with
  | none => false
  | some o => o.currentValue == "1"

/-- The value of a decimal digit character, if it is one. -/
def charDigit (c : Char) : Option Nat :=
  if 48 ≤ c.toNat ∧ c.toNat ≤ 57 then some (c.toNat - 48) else none

/-- Accumulate a decimal number over a list of digit characters. -/
def natOfDigits : List Char → Nat → Option Nat
  | [], acc => some acc
  | c :: rest, acc =>
      match charDigit c with
      | some d => natOfDigits rest (acc * 10 + d)
      | none => none

/-- `istringstream >> int`, modelled on the string's characters: an
optional minus sign followed by decimal digits. -/
def strToInt (s : String) : Option Int :=
  match s.data with
  | [] => none
  | '-' :: rest => if rest = [] then none else (natOfDigits rest 0).map (fun n => -(n : Int))
  | cs => (natOfDigits cs 0).map (fun n => (n : Int))

/-- `get_option_value<int>`: a missing option or failed parse returns
the default-constructed 0. -/
def get_option_value_int (opts : Options) (name : String) : Int :=
  match optionsFind opts name with
  | none => 0
  | some o => (strToInt o.currentValue).getD 0

/-- `push_button(buttonName)`: `set_option_value(buttonName, "true")`. -/
def push_button (opts : Options) (buttonName : String) : Options × List String :=
  set_option_value opts buttonName "true"

/-- `button_was_pressed(buttonName)`: false if the option is not
currently "true"; otherwise reset it to "false" and report true. -/
def button_was_pressed (opts : Options) (buttonName : String) : Bool × Options :=
  if !(get_option_value_bool opts buttonName) then (false, opts)
  else (true, (set_option_value opts buttonName "false").1)

/- ===================================================================
   The "go" command handler (uci.cpp)
   =================================================================== -/

/-- The tokens of a `go` command line, with each numeric parameter
already lexed together with its keyword (`uip >> token` then
`uip >> <int variable>` in the source); `searchmoves` carries all the
remaining words of the line, which the source parses as moves. -/
inductive GoToken where
  | infinite
  | ponder
  | wtime (n : Int)
  | btime (n : Int)
  | winc (n : Int)
  | binc (n : Int)
  | movestogo (n : Int)
  | depth (n : Int)
  | nodes (n : Int)
  | movetime (n : Int)
  | searchmoves (ms : List Nat)
deriving DecidableEq

/-- The local variables of `go()` that are passed on to `think()`:
`time[2]`, `inc[2]`, `movesToGo`, `depth`, `nodes`, `moveTime`,
`infinite`, `ponder`, `searchMoves` (moves as 17-bit integers). -/
structure GoParams where
  time0 : Int
  time1 : Int
  inc0 : Int
  inc1 : Int
  movesToGo : Int
  depth : Int
  nodes : Int
  moveTime : Int
  infinite : Bool
  ponder : Bool
  searchMoves : List Nat
deriving DecidableEq

/-- The initializers of `go()`'s locals: all zero / false / empty. -/
def goParamsInit : GoParams :=
  { time0 := 0, time1 := 0, inc0 := 0, inc1 := 0, movesToGo := 0, depth := 0,
    nodes := 0, moveTime := 0, infinite := false, ponder := false, searchMoves := [] }

/-- The token loop of `go()`: each recognized token sets its variable;
`searchmoves` consumes the rest of the line. -/
def goLoop : GoParams → List GoToken → GoParams
  | s, [] => s
  | s, GoToken.infinite :: rest => goLoop { s with infinite := true } rest
  | s, GoToken.ponder :: rest => goLoop { s with ponder := true } rest
  | s, GoToken.wtime n :: rest => goLoop { s with time0 := n } rest
  | s, GoToken.btime n :: rest => goLoop { s with time1 := n } rest
  | s, GoToken.winc n :: rest => goLoop { s with inc0 := n } rest
  | s, GoToken.binc n :: rest => goLoop { s with inc1 := n } rest
  | s, GoToken.movestogo n :: rest => goLoop { s with movesToGo := n } rest
  | s, GoToken.depth n :: rest => goLoop { s with depth := n } rest
  | s, GoToken.nodes n :: rest => goLoop { s with nodes := n } rest
  | s, GoToken.movetime n :: rest => goLoop { s with moveTime := n } rest
  | s, GoToken.searchmoves ms :: _ => { s with searchMoves := ms }

/-- `go()`: run the token loop, then apply the source's HACK
`if (moveTime) infinite = true;` — the resulting record is what is
passed to `think()`. -/
def go (toks : List GoToken) : GoParams :=
  let s := goLoop goParamsInit toks
  if s.moveTime ≠ 0 then { s with infinite := true } else s

/- ===================================================================
   Theorems
   =================================================================== -/

/-- Helper: starting from a generation below 2^8, `n` searches leave the
generation counter at `(g + n) % 2^8`. -/
theorem new_search_iter (g n : Nat) (hg : g < 2 ^ 8) :
    (TranspositionTable.new_search)^[n] g = (g + n) % 2 ^ 8 := by
  induction n with
  | zero => simpa using (Nat.mod_eq_of_lt hg).symm
  | succ n ih =>
      rw [Function.iterate_succ_apply', ih, TranspositionTable.new_search]
      omega

/-- Helper: the value packed into the `data` word of a `TTEntry` is the
sum of its three disjoint bit fields. -/
theorem TTEntry_make_data (k : Nat) (v : Int) (t : Nat) (d : Int) (m g : Nat)
    (ht : t < 8) (hm : m < 2 ^ 17) (hg : g < 2 ^ 9) :
    (TTEntry.make k v t d m g).data = 2 ^ 23 * g + 2 ^ 20 * t + m := by
  show ((m &&& 0x1FFFF) ||| (t <<< 20) ||| (g <<< 23)) % 2 ^ 32 = 2 ^ 23 * g + 2 ^ 20 * t + m
  have h1 : m &&& 0x1FFFF = m := by
    have h := Nat.and_pow_two_sub_one_eq_mod m 17
    norm_num at h
    rw [show (0x1FFFF : Nat) = 131071 by norm_num, h]
    omega
  have h2 : t <<< 20 = 2 ^ 20 * t := by rw [Nat.shiftLeft_eq]; ring
  have h3 : g <<< 23 = 2 ^ 23 * g := by rw [Nat.shiftLeft_eq]; ring
  have h4 : m ||| 2 ^ 20 * t = 2 ^ 20 * t + m := by
    rw [Nat.lor_comm]
    exact (Nat.mul_add_lt_is_or (by omega) t).symm
  have h5 : 2 ^ 20 * t + m ||| 2 ^ 23 * g = 2 ^ 23 * g + (2 ^ 20 * t + m) := by
    rw [Nat.lor_comm]
    exact (Nat.mul_add_lt_is_or (by omega) g).symm
  rw [h1, h2, h3, h4, h5]
  omega

/-- Helper: `int16_t` conversion is the identity on the 16-bit signed range. -/
theorem int16Of_eq_self (v : Int) (h1 : -2 ^ 15 ≤ v) (h2 : v < 2 ^ 15) : int16Of v = v := by
  unfold int16Of
  omega

/-- C2: a `TTEntry` built from in-range fields returns exactly those
fields through its accessors `key`, `value`, `type`, `depth`, `move`,
`generation`, and its stored bit pattern fits in 128 bits. -/
theorem TTEntry_make_roundtrip (k : Nat) (v : Int) (t : Nat) (d : Int) (m g : Nat)
    (hk : k < 2 ^ 64) (hv1 : -2 ^ 15 ≤ v) (hv2 : v < 2 ^ 15)
    (hd1 : -2 ^ 15 ≤ d) (hd2 : d < 2 ^ 15)
    (ht : t < 8) (hm : m < 2 ^ 17) (hg : g < 2 ^ 9) :
    (TTEntry.make k v t d m g).key = k ∧
      (TTEntry.make k v t d m g).value = v ∧
      (TTEntry.make k v t d m g).type = t ∧
      (TTEntry.make k v t d m g).depth = d ∧
      (TTEntry.make k v t d m g).move = m ∧
      (TTEntry.make k v t d m g).generation = g ∧
      (TTEntry.make k v t d m g).bits < 2 ^ 128 := by
  have hdata := TTEntry_make_data k v t d m g ht hm hg
  have hand : ∀ x : Nat, x &&& 0x1FFFF = x % 2 ^ 17 := by
    intro x
    have h := Nat.and_pow_two_sub_one_eq_mod x 17
    norm_num at h
    rw [show (0x1FFFF : Nat) = 131071 by norm_num, h]
    norm_num
  refine ⟨rfl, int16Of_eq_self v hv1 hv2, ?_, int16Of_eq_self d hd1 hd2, ?_, ?_, ?_⟩
  · show ((TTEntry.make k v t d m g).data >>> 20) &&& 7 = t
    rw [Nat.shiftRight_eq_div_pow, hdata]
    have h7 : ∀ x : Nat, x &&& 7 = x % 2 ^ 3 := by
      intro x
      have h := Nat.and_pow_two_sub_one_eq_mod x 3
      norm_num at h
      norm_num [h]
    rw [h7]
    omega
  · show (TTEntry.make k v t d m g).data &&& 0x1FFFF = m
    rw [hand, hdata]
    omega
  · show (TTEntry.make k v t d m g).data >>> 23 = g
    rw [Nat.shiftRight_eq_div_pow, hdata]
    omega
  · show (TTEntry.make k v t d m g).key_ + 2 ^ 64 * (TTEntry.make k v t d m g).data +
        2 ^ 96 * uint16Of (TTEntry.make k v t d m g).value_ +
        2 ^ 112 * uint16Of (TTEntry.make k v t d m g).depth_ < 2 ^ 128
    have hu : ∀ w : Int, uint16Of w < 2 ^ 16 := by
      intro w
      unfold uint16Of
      omega
    have h1 := hu (TTEntry.make k v t d m g).value_
    have h2 := hu (TTEntry.make k v t d m g).depth_
    have h3 : (TTEntry.make k v t d m g).key_ = k := rfl
    rw [h3, hdata]
    omega

/-- C2 witness: the round-trip theorem at a concrete entry. -/
theorem TTEntry_make_roundtrip_witness :
    (TTEntry.make 0xABCDEF (-100) 3 25 77777 300).move = 77777 ∧
      (TTEntry.make 0xABCDEF (-100) 3 25 77777 300).value = -100 := by
  have h := TTEntry_make_roundtrip 0xABCDEF (-100) 3 25 77777 300
    (by norm_num) (by norm_num) (by norm_num) (by norm_num) (by norm_num)
    (by norm_num) (by norm_num) (by norm_num)
  exact ⟨h.2.2.2.2.1, h.2.1⟩

/-- C1 (amended): the generation counter is a `uint8_t`; `new_search`
increments it by one per search wrapping into 8 bits, so after `n`
searches from a generation `g < 2^8` it holds `(g + n) % 2^8`. -/
theorem new_search_generation_wraps_8bit (g n : Nat) (hg : g < 2 ^ 8) :
    (TranspositionTable.new_search)^[n] g = (g + n) % 2 ^ 8 :=
  new_search_iter g n hg

/-- C1 witness: after 300 searches from generation 0 the counter holds
300 % 2^8 = 44. -/
theorem new_search_generation_wraps_8bit_witness :
    (TranspositionTable.new_search)^[300] 0 = (0 + 300) % 2 ^ 8 :=
  new_search_generation_wraps_8bit 0 300 (by decide)

/-- C1 counterexample: after 256 searches from generation 0 the counter
holds 0, not 256 % 2^9 = 256, so the counter does not take values modulo
2^9 as the claim states. -/
theorem new_search_not_mod_512 :
    (TranspositionTable.new_search)^[256] 0 ≠ (0 + 256) % 2 ^ 9 := by
  rw [new_search_iter 0 256 (by decide)]
  decide

/-- C3: `game_phase` agrees with the spec's tapering formula and always
returns a value in [0, 128]. -/
theorem game_phase_correct (npm : Nat) :
    Position.game_phase npm = Position.gamePhaseSpec npm ∧ Position.game_phase npm ≤ 128 := by
  unfold Position.game_phase Position.gamePhaseSpec Position.MidgameLimit Position.EndgameLimit
      PHASE_MIDGAME PHASE_ENDGAME
  constructor
  · rfl
  · split
    · omega
    · split
      · omega
      · have h : (npm - 4428) * 128 / (15713 - 4428) ≤ 11284 * 128 / 11285 := by
          apply Nat.div_le_div_right
          have : npm - 4428 ≤ 11284 := by omega
          exact Nat.mul_le_mul_right 128 this
        omega

/-- Helper: the bits of the file A mask are exactly the multiples of 8
below 64. -/
theorem fileABB_testBit (j : Nat) :
    Position.FileABB.testBit j = (decide (j < 64) && decide (j % 8 = 0)) := by
  rcases Nat.lt_or_ge j 64 with h | h
  · interval_cases j <;> decide
  · have h1 : Position.FileABB.testBit j = false := by
      apply Nat.testBit_eq_false_of_lt
      calc Position.FileABB < 2 ^ 64 := by decide
        _ ≤ 2 ^ j := Nat.pow_le_pow_right (by omega) h
    rw [h1]
    simp
    omega

/-- Helper: the bits of `file_bb f` are the squares `i` with `f ≤ i`,
`i - f < 64` and `i ≡ f (mod 8)`. -/
theorem file_bb_testBit (f i : Nat) :
    (Position.file_bb f).testBit i =
      (decide (f ≤ i) && (decide (i - f < 64) && decide ((i - f) % 8 = 0))) := by
  unfold Position.file_bb
  rw [Nat.testBit_shiftLeft, fileABB_testBit]

/-- Helper: `file_is_open pawns f` holds exactly when the given pawn
bitboard has no pawn on any of the eight squares of file `f`. -/
theorem file_is_open_iff (pawns f : Nat) :
    Position.file_is_open pawns f = true ↔
      ∀ k, k < 8 → pawns.testBit (f + 8 * k) = false := by
  unfold Position.file_is_open
  rw [beq_iff_eq]
  constructor
  · intro h k hk
    have hb : (pawns &&& Position.file_bb f).testBit (f + 8 * k) = false := by
      rw [h]
      simp
    rw [Nat.testBit_and, file_bb_testBit] at hb
    cases hpt : pawns.testBit (f + 8 * k) with
    | false => rfl
    | true =>
      exfalso
      rw [hpt] at hb
      simp at hb
      omega
  · intro h
    apply Nat.zero_of_testBit_eq_false
    intro i
    rw [Nat.testBit_and, file_bb_testBit]
    by_cases h1 : f ≤ i
    · by_cases h2 : i - f < 64
      · by_cases h3 : (i - f) % 8 = 0
        · obtain ⟨k, hk⟩ : ∃ k, i - f = 8 * k := ⟨(i - f) / 8, by omega⟩
          have hik : i = f + 8 * k := by omega
          have hp : pawns.testBit i = false := by
            rw [hik]
            exact h k (by omega)
          simp [hp]
        · simp [h3]
      · simp [h2]
    · simp [h1]

/-- C4 counterexample: as implemented, `file_is_open` and
`file_is_half_open` are one and the same function (their bodies are
identical), contradicting the claim that the two are not extensionally
equal. -/
theorem file_is_open_eq_file_is_half_open :
    Position.file_is_open = Position.file_is_half_open := rfl

/-- C4 (amended): on every pawn bitboard and every file `f < 8` the two
functions agree, and both compute "no pawn of the supplied bitboard on
file `f`"; the own-pawns / either-color distinction exists only in which
bitboard the caller passes. -/
theorem file_open_half_open_agree (pawns f : Nat) (hf : f < 8) :
    Position.file_is_open pawns f = Position.file_is_half_open pawns f ∧
      (Position.file_is_half_open pawns f = true ↔
        ∀ k, k < 8 → pawns.testBit (f + 8 * k) = false) :=
  ⟨rfl, file_is_open_iff pawns f⟩

/-- C4 witness: the agreement theorem at pawn bitboard 256 (a pawn on
square a2) and file 0. -/
theorem file_open_half_open_agree_witness :
    Position.file_is_open 256 0 = Position.file_is_half_open 256 0 :=
  (file_open_half_open_agree 256 0 (by decide)).1

/-- C5 counterexample: on the KNN-vs-K material key, `get_material_info`
selects no specialized endgame evaluation function at all — the
`evaluationFunction` field stays empty, contradicting the claim that
the draw is recognized by an evaluation function that replaces the
static evaluation. -/
theorem knnk_selects_no_evaluation_function :
    (get_material_info initEndgameFunctions posKNNK).evaluationFunction = none := by
  decide

/-- C5 (amended): on either KNN-vs-K material key, `get_material_info`
returns a `MaterialInfo` with no evaluation function whose scale factor
is 0 for both colors, recognizing the draw by scaling the endgame score
to zero. -/
theorem knnk_no_eval_function (funcs : EndgameFunctions) (pos : Position)
    (h : pos.materialKey = KNNKMaterialKey ∨ pos.materialKey = KKNNMaterialKey) :
    (get_material_info funcs pos).evaluationFunction = none ∧
      (get_material_info funcs pos).factor Color.WHITE = 0 ∧
      (get_material_info funcs pos).factor Color.BLACK = 0 := by
  unfold get_material_info
  rw [if_pos h]
  simp [MaterialInfo.setFactor, MaterialInfo.factor, clearMI]

/-- C5 witness: the amended theorem at the concrete KNN-vs-K position. -/
theorem knnk_no_eval_function_witness :
    (get_material_info initEndgameFunctions posKNNK).factor Color.WHITE = 0 ∧
      (get_material_info initEndgameFunctions posKNNK).factor Color.BLACK = 0 :=
  (knnk_no_eval_function initEndgameFunctions posKNNK (Or.inl rfl)).2

/-- C8: inserting a scaling function under a key already present in
`ESFmap` leaves the map unchanged (`std::map::insert` never
overwrites), and after the constructor's duplicated KRPPKRP/KRPKRPP
registrations `getESF` returns the function and color of the first
registration. -/
theorem esf_add_idempotent (ef : EndgameFunctions) (keyCode : String) (c : Color) (f : ESF)
    (h : ef.ESFmap.any (fun p => p.1 == buildKey keyCode) = true) :
    addESF ef keyCode c f = ef ∧
      getESF initEndgameFunctions (buildKey "KRPPKRP") =
        some ⟨Color.WHITE, ESF.ScaleKRPPKRP⟩ ∧
      getESF initEndgameFunctions (buildKey "KRPKRPP") =
        some ⟨Color.BLACK, ESF.ScaleKRPKRPP⟩ := by
  refine ⟨?_, by decide, by decide⟩
  unfold addESF mapInsert
  rw [if_pos h]

/-- C8 witness: repeating the KRPPKRP registration on the fully
constructed registry is a no-op. -/
theorem esf_add_idempotent_witness :
    addESF initEndgameFunctions "KRPPKRP" Color.WHITE ESF.ScaleKRPPKRP = initEndgameFunctions :=
  (esf_add_idempotent initEndgameFunctions "KRPPKRP" Color.WHITE ESF.ScaleKRPPKRP (by decide)).1

theorem optionsContains_of_find (opts : Options) (name : String) (o : UCIOption)
    (h : optionsFind opts name = some o) : optionsContains opts name = true := by
  unfold optionsFind at h
  unfold optionsContains
  cases hf : opts.find? (fun p => p.1 == name) with
  | none => rw [hf] at h; simp at h
  | some q =>
      have h1 := List.find?_some hf
      exact List.any_eq_true.mpr ⟨q, List.mem_of_find?_eq_some hf, h1⟩

theorem optionsFind_update (opts : Options) (name v : String) :
    optionsFind
        (opts.map (fun p => if p.1 == name then (p.1, { p.2 with currentValue := v }) else p))
        name
      = (optionsFind opts name).map (fun o => { o with currentValue := v }) := by
  induction opts with
  | nil => rfl
  | cons p rest ih =>
      by_cases hp : (p.1 == name) = true
      · unfold optionsFind
        simp [List.find?, hp]
      · unfold optionsFind
        simp only [List.map_cons, if_neg hp]
        rw [show ∀ l : List (String × UCIOption), List.find? (fun q => q.1 == name) (p :: l)
              = List.find? (fun q => q.1 == name) l from fun l => List.find?_cons_of_neg l hp,
            show List.find? (fun q => q.1 == name) (p :: rest)
              = List.find? (fun q => q.1 == name) rest from List.find?_cons_of_neg rest hp]
        exact ih

theorem set_option_value_found (opts : Options) (name value : String) (o : UCIOption)
    (hfind : optionsFind opts name = some o) :
    (set_option_value opts name value).2 = [] ∧
      optionsFind (set_option_value opts name value).1 name =
        some { o with currentValue := convertBoolValue value } := by
  have hc := optionsContains_of_find opts name o hfind
  unfold set_option_value
  simp only [hc, if_true]
  refine ⟨trivial, ?_⟩
  rw [optionsFind_update, hfind]
  rfl

theorem set_option_value_unknown_name (opts : Options) (name v : String)
    (h : optionsContains opts name = false) :
    set_option_value opts name v = (opts, ["No such option: " ++ name]) := by
  unfold set_option_value
  simp [h]

theorem set_option_value_unknown_name_witness :
    set_option_value load_defaults "Foo" "1" = (load_defaults, ["No such option: " ++ "Foo"]) :=
  set_option_value_unknown_name load_defaults "Foo" "1" (by decide)

theorem set_option_value_no_range_check (opts : Options) (name v : String) (o : UCIOption)
    (n : Int)
    (hfind : optionsFind opts name = some o)
    (hspin : o.type = OptionType.SPIN)
    (hv1 : v ≠ "true") (hv2 : v ≠ "false")
    (hn : strToInt v = some n)
    (hout : n < o.minValue ∨ o.maxValue < n) :
    (set_option_value opts name v).2 = [] ∧
      optionsFind (set_option_value opts name v).1 name = some { o with currentValue := v } ∧
      get_option_value_int (set_option_value opts name v).1 name = n := by
  have hcv : convertBoolValue v = v := by
    unfold convertBoolValue
    have hb1 : (v == "true") = false := by simp [hv1]
    have hb2 : (v == "false") = false := by simp [hv2]
    simp [hb1, hb2]
  have h := set_option_value_found opts name v o hfind
  rw [hcv] at h
  refine ⟨h.1, h.2, ?_⟩
  unfold get_option_value_int
  rw [h.2]
  simp [hn]

theorem set_option_value_no_range_check_witness :
    get_option_value_int (set_option_value load_defaults "Hash" "9999").1 "Hash" = 9999 :=
  (set_option_value_no_range_check load_defaults "Hash" "9999"
    { name := "Hash", defaultValue := "32", currentValue := "32", type := OptionType.SPIN,
      idx := 46, minValue := 4, maxValue := 4096, comboValues := [] } 9999
    (by decide) rfl (by decide) (by decide) (by decide) (by decide)).2.2

theorem set_option_value_no_clamp :
    (set_option_value load_defaults "Hash" "9999").2 = [] ∧
      get_option_value_int (set_option_value load_defaults "Hash" "9999").1 "Hash" = 9999 ∧
      (4096 : Int) < 9999 ∧
      get_option_value_int load_defaults "Hash" = 32 := by
  refine ⟨by decide, by decide, by norm_num, by decide⟩

theorem button_press_cycle (opts : Options) (name : String) (o : UCIOption)
    (hfind : optionsFind opts name = some o) (hbut : o.type = OptionType.BUTTON) :
    (button_was_pressed (push_button opts name).1 name).1 = true ∧
      optionsFind (button_was_pressed (push_button opts name).1 name).2 name =
        some { o with currentValue := "0" } ∧
      button_was_pressed (button_was_pressed (push_button opts name).1 name).2 name =
        (false, (button_was_pressed (push_button opts name).1 name).2) ∧
      (o.currentValue = "0" → button_was_pressed opts name = (false, opts)) := by
  have h1 : optionsFind (push_button opts name).1 name =
      some { o with currentValue := "1" } :=
    (set_option_value_found opts name "true" o hfind).2
  have hb1 : get_option_value_bool (push_button opts name).1 name = true := by
    unfold get_option_value_bool
    simp [h1]
  have hr1 : button_was_pressed (push_button opts name).1 name =
      (true, (set_option_value (push_button opts name).1 name "false").1) := by
    unfold button_was_pressed
    simp [hb1]
  have h2 : optionsFind (set_option_value (push_button opts name).1 name "false").1 name =
      some { o with currentValue := "0" } :=
    (set_option_value_found (push_button opts name).1 name "false" _ h1).2
  have hb2 : get_option_value_bool
      (set_option_value (push_button opts name).1 name "false").1 name = false := by
    unfold get_option_value_bool
    simp [h2]
  have hr2 : button_was_pressed (set_option_value (push_button opts name).1 name "false").1 name =
      (false, (set_option_value (push_button opts name).1 name "false").1) := by
    unfold button_was_pressed
    simp [hb2]
  refine ⟨by rw [hr1], ?_, ?_, ?_⟩
  · rw [hr1]
    exact h2
  · rw [hr1]
    exact hr2
  · intro h0
    have hb0 : get_option_value_bool opts name = false := by
      unfold get_option_value_bool
      simp [hfind, h0]
    unfold button_was_pressed
    simp [hb0]

theorem button_press_cycle_witness :
    (button_was_pressed (push_button load_defaults "Clear Hash").1 "Clear Hash").1 = true :=
  (button_press_cycle load_defaults "Clear Hash"
    { name := "Clear Hash", defaultValue := "0", currentValue := "0",
      type := OptionType.BUTTON, idx := 47, minValue := 0, maxValue := 0, comboValues := [] }
    (by decide) rfl).1

/-- C7: whenever the parsed movetime value is nonzero, `go` invokes
`think` with the infinite flag set to true, whether or not the command
contained the token `infinite`. -/
theorem go_movetime_forces_infinite (toks : List GoToken)
    (h : (go toks).moveTime ≠ 0) : (go toks).infinite = true := by
  unfold go at h ⊢
  by_cases hmt : (goLoop goParamsInit toks).moveTime ≠ 0
  · simp only [if_pos hmt]
  · simp only [if_neg hmt] at h
    exact absurd h hmt

/-- C7 witness: `go movetime 200` (with no `infinite` token in the
command) still sets the infinite flag. -/
theorem go_movetime_forces_infinite_witness :
    (go [GoToken.movetime 200]).infinite = true :=
  go_movetime_forces_infinite [GoToken.movetime 200] (by decide)
